import Mathlib

/-!
Verification development for the DiffWindow repository (cursemenu.py,
diffwin.py): a shallow embedding of the viewport engine (showmenu), the
split-pane renderer (drawsplitpane) and the diff session controller
(showdiff), together with theorems settling the specification claims.

Text is modelled as `List Char`; a rendered frame is modelled as the list
of write operations (`WriteOp`) issued to the curses screen, in program
order.  Terminal writes themselves never fail in the model (curses
clipping is outside the algorithmic core); the only failure point kept is
Python-level list indexing, modelled with `Option`/`Except`.
-/

/-- Python list slicing `s[a:b]` (step 1), with negative-index wrapping
and clamping, as in CPython. -/
def pySlice {α : Type} (s : List α) (a b : Int) : List α :=
  let n : Int := s.length
  let start : Int := if a < 0 then max 0 (n + a) else min a n
  let stop : Int := if b < 0 then max 0 (n + b) else min b n
  (s.drop start.toNat).take (stop - start).toNat

/-- Python list indexing `s[i]`: negative indices count from the end;
out-of-range gives `none` (an `IndexError` in Python). -/
def pyIndex {α : Type} (s : List α) (i : Int) : Option α :=
  if 0 ≤ i then s.get? i.toNat
  else if 0 ≤ i + s.length then s.get? (i + s.length).toNat
  else none

/-- The ASCII whitespace characters removed by Python `str.strip()`. -/
def isPySpace (c : Char) : Bool :=
  c == ' ' || c == '\t' || c == '\n' || c == '\r' || c == '\x0b' || c == '\x0c'

/-- Python `str.strip()`: drop leading and trailing whitespace. -/
def pyStrip (s : List Char) : List Char :=
  ((s.dropWhile isPySpace).reverse.dropWhile isPySpace).reverse

/-- The curses styles used by the two renderers: `std` is
`color_pair(0)`, `matchHl` is `color_pair(1)|A_BOLD` (the emphasis-match
style), `info` is `color_pair(2)|A_BOLD`, `title` is the title style,
`item` is `color_pair(1)`, `active` is `color_pair(1)|A_BOLD` used for
the selected choice, `error` is `color_pair(3)|A_BOLD`. -/
inductive Style where
  | std
  | matchHl
  | info
  | title
  | item
  | active
  | error
deriving DecidableEq, Repr

/-- One `scr.insstr(row, col, text, style)` call. -/
structure WriteOp where
  row : Int
  col : Int
  text : List Char
  style : Style
deriving DecidableEq, Repr

/-- A pane's top-left viewport origin (`lpos`/`rpos` in the source):
`row` is the starting buffer row (may be `-1`), `col` the starting
column. -/
structure PanePos where
  row : Int
  col : Int
deriving DecidableEq, Repr

/-- `middle = width//2 + paneshmt` in `drawsplitpane` (`width ≥ 0`, so
Python floor division is Nat division). -/
def middleOf (width : Nat) (shmt : Int) : Int := ((width / 2 : Nat) : Int) + shmt

/-- The starting screen column of the right pane (`rstart`), per the
three layout regimes of `drawsplitpane`. -/
def rstartOf (width : Nat) (shmt halfgap : Int) : Int :=
  let middle := middleOf width shmt
  if shmt ≠ 0 then
    if middle ≥ (width : Int) - halfgap then (width : Int)
    else if middle ≤ halfgap then 0
    else middle + halfgap
  else middle + halfgap

/-- The stop column for slicing left-pane lines (`lstop`), per the three
layout regimes of `drawsplitpane`. -/
def lstopOf (width : Nat) (shmt halfgap lcol : Int) : Int :=
  let middle := middleOf width shmt
  if shmt ≠ 0 then
    if middle ≥ (width : Int) - halfgap then (width : Int) + lcol
    else if middle ≤ halfgap then lcol
    else middle - halfgap + lcol
  else middle - halfgap + lcol

/-- The stop column for slicing right-pane lines:
`rstop = width - rstart + rpos[1]`. -/
def rstopOf (width : Nat) (shmt halfgap rcol : Int) : Int :=
  (width : Int) - rstartOf width shmt halfgap + rcol

def leftLabel : List Char := ['l', 'e', 'f', 't']
def rightLabel : List Char := ['r', 'i', 'g', 'h', 't']
def endMarker : List Char := ['E', 'N', 'D']

/-- The pane-label writes on screen row 0 of `drawsplitpane`, per layout
regime. -/
def labelOps (width : Nat) (shmt halfgap : Int) : List WriteOp :=
  let middle := middleOf width shmt
  if shmt ≠ 0 then
    if middle ≥ (width : Int) - halfgap then [⟨0, 1, leftLabel, .info⟩]
    else if middle ≤ halfgap then [⟨0, (width : Int) - 6, rightLabel, .info⟩]
    else [⟨0, 1, leftLabel, .info⟩, ⟨0, (width : Int) - 6, rightLabel, .info⟩]
  else [⟨0, 1, leftLabel, .info⟩, ⟨0, (width : Int) - 11, rightLabel, .info⟩]

/-- The per-row style chosen by `drawsplitpane`: the emphasis-match style
exactly when highlighting is on, both buffer indices for this screen row
are in bounds, and the two lines are equal after `strip()`. -/
def rowColor (highlight : Bool) (lhs : List (List Char)) (lpos : PanePos)
    (rhs : List (List Char)) (rpos : PanePos) (i : Nat) : Style :=
  if highlight ∧ 0 ≤ (i : Int) + lpos.row ∧ 0 ≤ (i : Int) + rpos.row
      ∧ (i : Int) + lpos.row < lhs.length ∧ (i : Int) + rpos.row < rhs.length
      ∧ pyStrip (lhs.getD (lpos.row + i).toNat []) = pyStrip (rhs.getD (rpos.row + i).toNat [])
  then .matchHl else .std

/-- The writes one pane contributes to screen row `i` (`1 ≤ i`):
nothing when the pane is collapsed (`stopCol == pos.col`); otherwise the
clipped buffer line when `pos.row + i` is in bounds, the end-of-content
marker when it equals the buffer length, and nothing when it is negative
or beyond the end.  Instantiated with `startCol = 0, endCol = 1` for the
left pane and `startCol = rstart, endCol = width - 4` for the right. -/
def paneRowOps (buf : List (List Char)) (pos : PanePos)
    (stopCol startCol endCol : Int) (color : Style) (i : Nat) : List WriteOp :=
  if stopCol ≠ pos.col then
    if 0 ≤ (i : Int) + pos.row ∧ (i : Int) + pos.row < buf.length then
      [⟨i, startCol, pySlice (buf.getD (pos.row + i).toNat []) pos.col stopCol, color⟩]
    else if (i : Int) + pos.row = buf.length then
      [⟨i, endCol, endMarker, .info⟩]
    else []
  else []

/-- All writes of `drawsplitpane` for screen row `i`: left pane first,
then right pane, both in the row's color. -/
def splitRowOps (width : Nat) (lhs : List (List Char)) (lpos : PanePos)
    (rhs : List (List Char)) (rpos : PanePos) (highlight : Bool)
    (shmt halfgap : Int) (i : Nat) : List WriteOp :=
  let color := rowColor highlight lhs lpos rhs rpos i
  paneRowOps lhs lpos (lstopOf width shmt halfgap lpos.col) 0 1 color i
    ++ paneRowOps rhs rpos (rstopOf width shmt halfgap rpos.col)
        (rstartOf width shmt halfgap) ((width : Int) - 4) color i

/-- The full list of writes issued by `drawsplitpane` on a `height ×
width` screen: the pane labels on row 0, then rows `1 .. height-1`. -/
def drawsplitpane (height width : Nat) (lhs : List (List Char)) (lpos : PanePos)
    (rhs : List (List Char)) (rpos : PanePos) (highlight : Bool)
    (shmt halfgap : Int) : List WriteOp :=
  labelOps width shmt halfgap
    ++ (List.range' 1 (height - 1)).flatMap
        (splitRowOps width lhs lpos rhs rpos highlight shmt halfgap)

example :
    drawsplitpane 3 20 [['a'], ['b']] ⟨-1, 0⟩ [['a'], ['x']] ⟨-1, 0⟩ true 0 2 =
      [⟨0, 1, leftLabel, .info⟩, ⟨0, 9, rightLabel, .info⟩,
       ⟨1, 0, ['a'], .matchHl⟩, ⟨1, 12, ['a'], .matchHl⟩,
       ⟨2, 0, ['b'], .std⟩, ⟨2, 12, ['x'], .std⟩] := by decide

/-- The scroll state of the viewport engine `showmenu`: the first choice
row drawn (`topline`) and the highlighted selection (`hpos`).  Both are
Python ints (navigation can make `hpos` negative on empty lists). -/
structure MenuSt where
  topline : Int
  hpos : Int
deriving DecidableEq, Repr

/-- The abstract keys interpreted by `showmenu`: the three cancel keys
(escape/q/Q) collapse to `quit`, enter/return to `enter`, and any key the
dispatch chain ignores to `other`. -/
inductive MKey where
  | quit
  | home
  | kend
  | up
  | down
  | ppage
  | npage
  | enter
  | other
deriving DecidableEq, Repr

/-- The navigation-key state update of `showmenu`, transcribed from the
`elif` chain: `height` is the screen height, `actualtop` the screen row
of the first choice, `count` the number of choices.  Keys handled
elsewhere in the loop (`quit`, `enter`, `other`) leave the state
unchanged. -/
def menuKey (height actualtop : Int) (count : Nat) (k : MKey) (s : MenuSt) : MenuSt :=
  match k with
  | .home => ⟨0, 0⟩
  | .kend =>
      if actualtop + count > height then
        ⟨(count : Int) - height + actualtop, (count : Int) - 1⟩
      else s
  | .up =>
      if s.hpos > 0 then
        let hp := s.hpos - 1
        ⟨if actualtop + hp - s.topline < actualtop then s.topline - 1 else s.topline, hp⟩
      else s
  | .down =>
      if s.hpos < (count : Int) - 1 then
        let hp := s.hpos + 1
        ⟨if actualtop + hp - s.topline = height then s.topline + 1 else s.topline, hp⟩
      else s
  | .ppage =>
      if s.hpos > 0 then
        let hp := s.hpos - 4
        let tl := if hp - s.topline < 0 then hp else s.topline
        if hp < 0 then ⟨0, 0⟩ else ⟨tl, hp⟩
      else s
  | .npage =>
      let hp0 := s.hpos + 4
      let hp := if hp0 ≥ (count : Int) - 1 then (count : Int) - 1 else hp0
      let tl :=
        if actualtop + hp - s.topline ≥ height then
          s.topline + (actualtop + hp - s.topline - height + 1)
        else s.topline
      ⟨tl, hp⟩
  | _ => s

/-- The `err` argument of `showmenu`: a single string or a list of
strings. -/
inductive ErrVal where
  | s (v : List Char)
  | l (vs : List (List Char))
deriving DecidableEq, Repr

/-- Python truthiness of the `err` value (`if err:`): an empty string or
empty list is falsy. -/
def errTruthy : Option ErrVal → Bool
  | none => false
  | some (.s v) => !v.isEmpty
  | some (.l vs) => !vs.isEmpty

/-- `errorlen` as computed once at `showmenu` entry: 1 for a string
error, the list length for a list error. -/
def errorlenOf : ErrVal → Nat
  | .s _ => 1
  | .l vs => vs.length

/-- The per-invocation mutable state of the `showmenu` frame loop:
scroll state plus the transient error and its countdown counter
(`errorcounter`, `none` meaning not yet started). -/
structure FrameSt where
  topline : Int
  hpos : Int
  err : Option ErrVal
  counter : Option Int
deriving DecidableEq, Repr

/-- The value of `linenum` after the title, body sections and the two
separating blank conventions, i.e. the choice-area top when no error is
shown: `1 + sum over sections of (lines + 1) + 1`. -/
def baseLinenum (body : List (List (List Char))) : Int :=
  (body.foldl (fun acc sec => acc + sec.length + 1) 0 : Nat) + 2

/-- How many rows the error region advances `linenum` by when the error
is drawn: 2 for a string error; for a list error one per nonblank line,
minus one, plus two. -/
def errRegion : ErrVal → Int
  | .s _ => 2
  | .l vs => ((vs.filter (fun e => !e.isEmpty)).length : Int) - 1 + 2

/-- The value of `linenum` at the top of the choice area
(`actualtop`), including the error region when the error is drawn. -/
def linenumWithErr (body : List (List (List Char))) (err : Option ErrVal) : Int :=
  baseLinenum body +
    (match err with
     | some e => if errTruthy (some e) then errRegion e else 0
     | none => 0)

/-- Top of the `showmenu` loop: when an error is present and its counter
has reached zero, the error is cleared and `topline` is pulled back by
`errorlen + 1`, clamped at zero. -/
def clearPhase (st : FrameSt) : FrameSt :=
  match st.err with
  | some e =>
      if errTruthy (some e) ∧ st.counter = some 0 then
        let tl := st.topline - ((errorlenOf e : Int) + 1)
        { st with topline := if tl < 0 then 0 else tl, err := none }
      else st
  | none => st

/-- The error-countdown step inside the render pass of `showmenu`: on
first display the counter starts at 5 and, if the error region would
hide choices, `topline` is advanced by `errorlen + 1` but never past
`hpos`; on later frames the counter is decremented. -/
def errPhase (body : List (List (List Char))) (choices : List (List Char))
    (height : Int) (st : FrameSt) : FrameSt :=
  match st.err with
  | some e =>
      if errTruthy (some e) then
        let ln := baseLinenum body + errRegion e
        match st.counter with
        | none =>
            if height - ln < (choices.length : Int) then
              let tl' := st.topline + (errorlenOf e : Int) + 1
              { st with counter := some 5,
                        topline := if tl' > st.hpos then st.hpos else tl' }
            else { st with counter := some 5 }
        | some c => { st with counter := some (c - 1) }
      else st
  | none => st

/-- One repaint cycle of `showmenu` in which the pressed key changes no
scroll state (any key outside the dispatch chain): the clear phase
followed by the error-countdown phase. -/
def menuCycle (body : List (List (List Char))) (choices : List (List Char))
    (height : Int) (st : FrameSt) : FrameSt :=
  errPhase body choices height (clearPhase st)

/-- `maxwidth` as computed at `showmenu` entry: the maximum length over
the title, all body lines, the error lines and all choices. -/
def maxwidthOf (title : List Char) (body : List (List (List Char)))
    (err : Option ErrVal) (choices : List (List Char)) : Nat :=
  let m1 := body.foldl (fun m sec => sec.foldl (fun m line => max line.length m) m) title.length
  let m2 :=
    match err with
    | some (.s v) => max v.length m1
    | some (.l vs) => vs.foldl (fun m e => max e.length m) m1
    | none => m1
  choices.foldl (fun m line => max line.length m) m2

/-- The writes for the lines of one body section, entered with the
current `linenum`; each line first advances `linenum`, then is drawn.
Returns the writes and the final `linenum`. -/
def bodyLineOps (lshift : Nat) (ln : Int) : List (List Char) → List WriteOp × Int
  | [] => ([], ln)
  | line :: rest =>
      let r := bodyLineOps lshift (ln + 1) rest
      (⟨ln + 1, 4 + (lshift : Int), line, .item⟩ :: r.1, r.2)

/-- The writes for all body sections, with a blank row after each
section. -/
def bodySectionsOps (lshift : Nat) (ln : Int) :
    List (List (List Char)) → List WriteOp × Int
  | [] => ([], ln)
  | sec :: rest =>
      let r1 := bodyLineOps lshift ln sec
      let r2 := bodySectionsOps lshift (r1.2 + 1) rest
      (r1.1 ++ r2.1, r2.2)

/-- The writes for the lines of a list error: blank lines are skipped
without advancing `linenum`. -/
def errLinesOps (lshift : Nat) : List (List Char) → Int → List WriteOp × Int
  | [], ln => ([], ln)
  | e :: rest, ln =>
      if e.isEmpty then errLinesOps lshift rest ln
      else
        let r := errLinesOps lshift rest (ln + 1)
        (⟨ln, 4 + (lshift : Int), e, .error⟩ :: r.1, r.2)

/-- The error-region writes and the resulting `linenum`: nothing when
the error is absent or falsy; a string error is drawn at `linenum` which
then advances by 2; a list error draws its nonblank lines, then
`linenum` is decremented once and advanced by 2. -/
def errOps (lshift : Nat) (ln : Int) : Option ErrVal → List WriteOp × Int
  | none => ([], ln)
  | some e =>
      if errTruthy (some e) then
        match e with
        | .s v => ([⟨ln, 4 + (lshift : Int), v, .error⟩], ln + 2)
        | .l vs =>
            let r := errLinesOps lshift vs ln
            (r.1, r.2 - 1 + 2)
      else ([], ln)

/-- The choice-list writes of `showmenu`: indices below `topline` are
skipped, drawing stops when `linenum` reaches the screen height, and the
selected index is drawn in the active style. -/
def drawChoices (height : Int) (lshift : Nat) (hpos topline : Int) :
    Nat → Int → List (List Char) → List WriteOp
  | _, _, [] => []
  | i, ln, c :: rest =>
      if ln = height then []
      else if (i : Int) ≥ topline then
        ⟨ln, 4 + (lshift : Int), c, if (i : Int) = hpos then .active else .item⟩ ::
          drawChoices height lshift hpos topline (i + 1) (ln + 1) rest
      else drawChoices height lshift hpos topline (i + 1) ln rest

/-- All writes of one rendered `showmenu` frame, given the state after
the error phases: title, body, error region, choices.  `err0` is the
invocation's original error argument, which fixes `maxwidth` (and hence
the centering indent) for the whole invocation. -/
def menuRenderOps (height : Int) (width : Nat) (title : List Char)
    (body : List (List (List Char))) (err0 : Option ErrVal)
    (choices : List (List Char)) (st : FrameSt) : List WriteOp :=
  let mw := maxwidthOf title body err0 choices
  let lshift := if mw < width then (width - mw) / 2 else 0
  let rb := bodySectionsOps lshift 1 body
  let re := errOps lshift (rb.2 + 1) st.err
  ⟨0, (lshift : Int), title, .title⟩ ::
    (rb.1 ++ re.1 ++ drawChoices height lshift st.hpos st.topline 0 re.2 choices)

/-- The result of one `showmenu` frame: continue with a new state,
return a committed `(topline, hpos)` or the no-selection result on a
cancel key, or dismiss (info-box mode). -/
inductive MRes where
  | cont (st : FrameSt)
  | done (r : Option (Int × Int))
  | dismissed
deriving DecidableEq, Repr

/-- The one internal failure the model keeps: Python raising
`IndexError` on `choices[hpos]`. -/
inductive MenuFail where
  | indexError
deriving DecidableEq, Repr

/-- One full frame of the `showmenu` loop: error phases, then the
cursor-placement access `choices[hpos]` when `curs != 0` (the only
statement that can raise), then key dispatch — cancel keys first, then
the info-box early return, then navigation. -/
def menuFrame (body : List (List (List Char))) (choices : List (List Char))
    (height : Int) (curs : Int) (infobox : Bool) (k : MKey) (st : FrameSt) :
    Except MenuFail MRes :=
  let st1 := errPhase body choices height (clearPhase st)
  let acttop := linenumWithErr body st1.err
  if curs ≠ 0 ∧ (pyIndex choices st1.hpos).isNone then .error .indexError
  else if k = .quit then .ok (.done none)
  else if infobox then .ok .dismissed
  else if k = .enter then .ok (.done (some (st1.topline, st1.hpos)))
  else
    let s2 := menuKey height acttop choices.length k ⟨st1.topline, st1.hpos⟩
    .ok (.cont { st1 with topline := s2.topline, hpos := s2.hpos })

example :
    (menuKey 5 1 10 .down)^[6] ⟨0, 0⟩ = (⟨3, 6⟩ : MenuSt) := by decide

example :
    menuKey 5 1 10 .kend ((menuKey 5 1 10 .down)^[6] ⟨0, 0⟩) = (⟨6, 9⟩ : MenuSt) := by
  decide

/-- The keys interpreted by `showdiff`: mode toggles, boundary shifts and
the eight directional keys; `other` is any key outside the chain. -/
inductive DKey where
  | space
  | tab
  | hl
  | plus
  | minus
  | eq
  | home
  | kend
  | ppage
  | npage
  | up
  | down
  | left
  | right
  | other
deriving DecidableEq, Repr

/-- The eight directional keys of the diff session controller. -/
def DKey.isDirectional : DKey → Bool
  | .home | .kend | .ppage | .npage | .up | .down | .left | .right => true
  | _ => false

/-- The composite mutable state of one `showdiff` session: the two pane
origins, the lock/side/highlight toggles, the boundary shift and the
last measured screen size. -/
structure DiffSt where
  lpos : PanePos
  rpos : PanePos
  singlescroll : Bool
  leftscroll : Bool
  highlight : Bool
  paneshmt : Int
  lastheight : Int
  lastwidth : Int
deriving DecidableEq, Repr

/-- `self.lwidth` / `self.rwidth`: the maximum line length of a buffer,
computed once at `showdiff` entry. -/
def colwidthOf (buf : List (List Char)) : Nat :=
  buf.foldl (fun m row => max row.length m) 0

/-- One keystroke transition of the `showdiff` loop body (the screen
size is left unchanged, i.e. no intervening resize).  `scrollL` and
`scrollR` are the `scroll('left')`/`scroll('right')` guards: a pane is
active when scrolling is locked or it is the side selected by the tab
toggle. -/
def diffStep (lhs rhs : List (List Char)) (k : DKey) (s : DiffSt) : DiffSt :=
  let middle := s.lastwidth.fdiv 2 + s.paneshmt
  let scrollL := !s.singlescroll || s.leftscroll
  let scrollR := !s.singlescroll || !s.leftscroll
  let llen : Int := lhs.length
  let rlen : Int := rhs.length
  let lwidth : Int := colwidthOf lhs
  let rwidth : Int := colwidthOf rhs
  match k with
  | .space => { s with singlescroll := !s.singlescroll }
  | .tab => { s with leftscroll := !s.leftscroll }
  | .hl => { s with highlight := !s.highlight }
  | .plus => if middle < s.lastwidth - 2 then { s with paneshmt := s.paneshmt + 1 } else s
  | .minus => if middle > 2 then { s with paneshmt := s.paneshmt - 1 } else s
  | .eq => { s with paneshmt := 0 }
  | .home =>
      { s with lpos := if scrollL then { s.lpos with row := -1 } else s.lpos,
               rpos := if scrollR then { s.rpos with row := -1 } else s.rpos }
  | .kend =>
      { s with
        lpos := if scrollL ∧ s.lastheight < llen then
                  { s.lpos with row := llen - s.lastheight + 1 } else s.lpos,
        rpos := if scrollR ∧ s.lastheight < rlen then
                  { s.rpos with row := rlen - s.lastheight + 1 } else s.rpos }
  | .ppage =>
      { s with
        lpos := if scrollL then
                  let r := s.lpos.row - (s.lastheight - 4)
                  { s.lpos with row := if r < 0 then -1 else r }
                else s.lpos,
        rpos := if scrollR then
                  let r := s.rpos.row - (s.lastheight - 4)
                  { s.rpos with row := if r < 0 then -1 else r }
                else s.rpos }
  | .npage =>
      { s with
        lpos := if scrollL ∧ s.lastheight < llen then
                  let r := s.lpos.row + (s.lastheight - 4)
                  { s.lpos with row := if r > llen - s.lastheight then llen - s.lastheight + 1 else r }
                else s.lpos,
        rpos := if scrollR ∧ s.lastheight < rlen then
                  let r := s.rpos.row + (s.lastheight - 4)
                  { s.rpos with row := if r > rlen - s.lastheight then rlen - s.lastheight + 1 else r }
                else s.rpos }
  | .up =>
      { s with lpos := if scrollL then { s.lpos with row := s.lpos.row - 1 } else s.lpos,
               rpos := if scrollR then { s.rpos with row := s.rpos.row - 1 } else s.rpos }
  | .down =>
      { s with lpos := if scrollL then { s.lpos with row := s.lpos.row + 1 } else s.lpos,
               rpos := if scrollR then { s.rpos with row := s.rpos.row + 1 } else s.rpos }
  | .left =>
      { s with lpos := if scrollL ∧ s.lpos.col > 0 then
                  { s.lpos with col := s.lpos.col - 1 } else s.lpos,
               rpos := if scrollR ∧ s.rpos.col > 0 then
                  { s.rpos with col := s.rpos.col - 1 } else s.rpos }
  | .right =>
      { s with
        lpos := if scrollL ∧ middle > 2 ∧ lwidth - s.lpos.col > middle - 2 then
                  { s.lpos with col := s.lpos.col + 1 } else s.lpos,
        rpos := if scrollR ∧ middle < s.lastwidth ∧ rwidth - s.rpos.col > s.lastwidth - middle - 2 then
                  { s.rpos with col := s.rpos.col + 1 } else s.rpos }
  | .other => s

/-- The state `showdiff` is in when its loop first runs: both origins at
`(0,0)`, locked scrolling, left side selected, highlighting on, no
boundary shift; the first processed key is forced to Home. -/
def diffInit (h w : Int) : DiffSt :=
  ⟨⟨0, 0⟩, ⟨0, 0⟩, false, true, true, 0, h, w⟩

/-- C10: every directional key leaves the inactive pane's offsets (and
all non-offset state) unchanged in independent-scroll mode, and in
locked-scroll mode moves each pane exactly as it would move were it the
single active pane. -/
theorem c10_directional_frame_effect (lhs rhs : List (List Char)) (k : DKey) (s : DiffSt)
    (hk : k.isDirectional = true) :
    (s.singlescroll = true → s.leftscroll = true →
        (diffStep lhs rhs k s).rpos = s.rpos)
      ∧ (s.singlescroll = true → s.leftscroll = false →
        (diffStep lhs rhs k s).lpos = s.lpos)
      ∧ ((diffStep lhs rhs k s).singlescroll = s.singlescroll
        ∧ (diffStep lhs rhs k s).leftscroll = s.leftscroll
        ∧ (diffStep lhs rhs k s).highlight = s.highlight
        ∧ (diffStep lhs rhs k s).paneshmt = s.paneshmt
        ∧ (diffStep lhs rhs k s).lastheight = s.lastheight
        ∧ (diffStep lhs rhs k s).lastwidth = s.lastwidth)
      ∧ (s.singlescroll = false →
        (diffStep lhs rhs k s).lpos =
          (diffStep lhs rhs k { s with singlescroll := true, leftscroll := true }).lpos
        ∧ (diffStep lhs rhs k s).rpos =
          (diffStep lhs rhs k { s with singlescroll := true, leftscroll := false }).rpos) := by
  cases k <;>
    first
      | exact absurd hk (by decide)
      | exact ⟨fun h1 h2 => by simp [diffStep, h1, h2],
          fun h1 h2 => by simp [diffStep, h1, h2],
          by simp [diffStep],
          fun h1 => ⟨by simp [diffStep, h1], by simp [diffStep, h1]⟩⟩

/-- C10 witness: Down with independent scrolling and the left side
active leaves the right pane's offset alone. -/
theorem c10_directional_frame_effect_witness :
    (diffStep [['a']] [['b']] .down ⟨⟨0, 0⟩, ⟨0, 0⟩, true, true, true, 0, 24, 80⟩).rpos =
      (⟨0, 0⟩ : PanePos) :=
  (c10_directional_frame_effect [['a']] [['b']] .down
      ⟨⟨0, 0⟩, ⟨0, 0⟩, true, true, true, 0, 24, 80⟩ (by decide)).1 rfl rfl

/-- A repaint cycle with a truthy error and a nonzero counter only
decrements the counter. -/
theorem menuCycle_decrement (body : List (List (List Char))) (choices : List (List Char))
    (height : Int) (s : FrameSt) (e : ErrVal) (c : Int)
    (he : s.err = some e) (htr : errTruthy (some e) = true)
    (hc : s.counter = some c) (hc0 : c ≠ 0) :
    menuCycle body choices height s = { s with counter := some (c - 1) } := by
  obtain ⟨tl, hp, err, cnt⟩ := s
  dsimp only at he hc
  subst he
  subst hc
  unfold menuCycle
  have h1 : clearPhase ⟨tl, hp, some e, some c⟩ = ⟨tl, hp, some e, some c⟩ := by
    simp [clearPhase, hc0]
  rw [h1]
  simp [errPhase, htr]

/-- A repaint cycle whose counter has reached zero clears the error and
pulls `topline` back by `errorlen + 1`, clamped at zero. -/
theorem menuCycle_clears (body : List (List (List Char))) (choices : List (List Char))
    (height : Int) (s : FrameSt) (e : ErrVal)
    (he : s.err = some e) (htr : errTruthy (some e) = true)
    (hc : s.counter = some 0) :
    menuCycle body choices height s =
      { s with err := none,
               topline := if s.topline - ((errorlenOf e : Int) + 1) < 0 then 0
                          else s.topline - ((errorlenOf e : Int) + 1) } := by
  obtain ⟨tl, hp, err, cnt⟩ := s
  dsimp only at he hc ⊢
  subst he
  subst hc
  unfold menuCycle
  have h1 : clearPhase ⟨tl, hp, some e, some 0⟩ =
      ⟨if tl - ((errorlenOf e : Int) + 1) < 0 then 0 else tl - ((errorlenOf e : Int) + 1),
       hp, none, some 0⟩ := by
    simp [clearPhase, htr]
  rw [h1]
  simp [errPhase]

/-- The first repaint cycle after a truthy error is supplied: the
counter starts at 5 and, when the error region would hide choices,
`topline` is advanced by `errorlen + 1` but capped at `hpos`. -/
theorem menuCycle_first (body : List (List (List Char))) (choices : List (List Char))
    (height : Int) (e : ErrVal) (tl hp : Int)
    (htr : errTruthy (some e) = true) :
    menuCycle body choices height ⟨tl, hp, some e, none⟩ =
      (if height - (baseLinenum body + errRegion e) < (choices.length : Int) then
        (⟨if tl + (errorlenOf e : Int) + 1 > hp then hp
          else tl + (errorlenOf e : Int) + 1, hp, some e, some 5⟩ : FrameSt)
       else ⟨tl, hp, some e, some 5⟩) := by
  unfold menuCycle
  have h1 : clearPhase ⟨tl, hp, some e, none⟩ = ⟨tl, hp, some e, none⟩ := by
    simp [clearPhase]
  rw [h1]
  simp only [errPhase, htr, if_true]

/-- Body-line writes all use the item style. -/
theorem bodyLineOps_style (lshift : Nat) (sec : List (List Char)) :
    ∀ (ln : Int) (op : WriteOp), op ∈ (bodyLineOps lshift ln sec).1 → op.style = .item := by
  induction sec with
  | nil => intro ln op h; simp [bodyLineOps] at h
  | cons a t ih =>
      intro ln op h
      simp only [bodyLineOps, List.mem_cons] at h
      rcases h with h | h
      · rw [h]
      · exact ih (ln + 1) op h

/-- Body-section writes all use the item style. -/
theorem bodySectionsOps_style (lshift : Nat) (body : List (List (List Char))) :
    ∀ (ln : Int) (op : WriteOp), op ∈ (bodySectionsOps lshift ln body).1 → op.style = .item := by
  induction body with
  | nil => intro ln op h; simp [bodySectionsOps] at h
  | cons sec rest ih =>
      intro ln op h
      simp only [bodySectionsOps, List.mem_append] at h
      rcases h with h | h
      · exact bodyLineOps_style lshift sec ln op h
      · exact ih _ op h

/-- Choice-list writes use the item or active style. -/
theorem drawChoices_style (height : Int) (lshift : Nat) (hpos topline : Int)
    (cs : List (List Char)) :
    ∀ (i : Nat) (ln : Int) (op : WriteOp),
      op ∈ drawChoices height lshift hpos topline i ln cs →
        op.style = .item ∨ op.style = .active := by
  induction cs with
  | nil => intro i ln op h; simp [drawChoices] at h
  | cons c rest ih =>
      intro i ln op h
      simp only [drawChoices] at h
      split at h
      · simp at h
      · split at h
        · rcases List.mem_cons.mp h with h | h
          · rw [h]
            dsimp only
            split
            · exact Or.inr rfl
            · exact Or.inl rfl
          · exact ih _ _ op h
        · exact ih _ _ op h

/-- A frame whose state carries no error renders no error-styled
write. -/
theorem menuRenderOps_no_error (height : Int) (width : Nat) (title : List Char)
    (body : List (List (List Char))) (err0 : Option ErrVal)
    (choices : List (List Char)) (st : FrameSt) (hst : st.err = none) :
    ∀ op ∈ menuRenderOps height width title body err0 choices st,
      op.style ≠ .error := by
  intro op h
  unfold menuRenderOps at h
  rw [hst] at h
  simp only [errOps, List.mem_cons, List.mem_append, List.not_mem_nil, or_false,
    List.append_nil] at h
  rcases h with h | h | h
  · rw [h]
    exact fun hc => by cases hc
  · rw [bodySectionsOps_style _ body _ op h]
    exact fun hc => by cases hc
  · rcases drawChoices_style _ _ _ _ choices _ _ op h with h2 | h2 <;>
      (rw [h2]; exact fun hc => by cases hc)

/-- C3 (amended): when a truthy error is first supplied to a menu
invocation, a 5-frame countdown starts; if the error region would hide
choices, `topline` advances by `errorlen + 1` capped at `selected` (so
it never exceeds `selected`); the message is still present after five
more repaint cycles and absent from the seventh frame, whose render
contains no error-styled write; on clearing, `topline` is decreased by
`errorlen + 1` clamped at zero — which restores the pre-message value
exactly when the compensating shift was applied uncapped, and can
otherwise leave `topline` below its pre-message value. -/
theorem c3_transient_error (body : List (List (List Char))) (choices : List (List Char))
    (height : Int) (e : ErrVal) (tl hp : Int)
    (htr : errTruthy (some e) = true) (htl : 0 ≤ tl) (hhp : tl ≤ hp) :
    ((menuCycle body choices height ⟨tl, hp, some e, none⟩).counter = some 5
      ∧ (menuCycle body choices height ⟨tl, hp, some e, none⟩).err = some e
      ∧ (menuCycle body choices height ⟨tl, hp, some e, none⟩).hpos = hp
      ∧ (menuCycle body choices height ⟨tl, hp, some e, none⟩).topline =
          (if height - (baseLinenum body + errRegion e) < (choices.length : Int) then
            (if tl + (errorlenOf e : Int) + 1 > hp then hp
             else tl + (errorlenOf e : Int) + 1)
           else tl)
      ∧ (menuCycle body choices height ⟨tl, hp, some e, none⟩).topline ≤ hp)
    ∧ ((menuCycle body choices height)^[6] ⟨tl, hp, some e, none⟩).err = some e
    ∧ ((menuCycle body choices height)^[7] ⟨tl, hp, some e, none⟩).err = none
    ∧ ((menuCycle body choices height)^[7] ⟨tl, hp, some e, none⟩).topline =
        (if (menuCycle body choices height ⟨tl, hp, some e, none⟩).topline -
              ((errorlenOf e : Int) + 1) < 0 then 0
         else (menuCycle body choices height ⟨tl, hp, some e, none⟩).topline -
              ((errorlenOf e : Int) + 1))
    ∧ (height - (baseLinenum body + errRegion e) < (choices.length : Int) →
        tl + (errorlenOf e : Int) + 1 ≤ hp →
        ((menuCycle body choices height)^[7] ⟨tl, hp, some e, none⟩).topline = tl)
    ∧ (∀ (width : Nat) (title : List Char) (err0 : Option ErrVal) (op : WriteOp),
        op ∈ menuRenderOps height width title body err0 choices
            ((menuCycle body choices height)^[7] ⟨tl, hp, some e, none⟩) →
        op.style ≠ .error) := by
  have hfirst := menuCycle_first body choices height e tl hp htr
  set s1 := menuCycle body choices height ⟨tl, hp, some e, none⟩ with hs1
  have hserr : s1.err = some e := by
    rw [hfirst]; split <;> rfl
  have hscnt : s1.counter = some 5 := by
    rw [hfirst]; split <;> rfl
  have hshp : s1.hpos = hp := by
    rw [hfirst]; split <;> rfl
  have hstop : s1.topline =
      (if height - (baseLinenum body + errRegion e) < (choices.length : Int) then
        (if tl + (errorlenOf e : Int) + 1 > hp then hp else tl + (errorlenOf e : Int) + 1)
       else tl) := by
    rw [hfirst]; split <;> rfl
  have hstople : s1.topline ≤ hp := by
    rw [hstop]
    split
    · split <;> omega
    · omega
  have e2 := menuCycle_decrement body choices height s1 e 5 hserr htr hscnt (by norm_num)
  norm_num at e2
  have e3 := menuCycle_decrement body choices height { s1 with counter := some 4 } e 4
      hserr htr rfl (by norm_num)
  norm_num at e3
  have e4 := menuCycle_decrement body choices height { s1 with counter := some 3 } e 3
      hserr htr rfl (by norm_num)
  norm_num at e4
  have e5 := menuCycle_decrement body choices height { s1 with counter := some 2 } e 2
      hserr htr rfl (by norm_num)
  norm_num at e5
  have e6 := menuCycle_decrement body choices height { s1 with counter := some 1 } e 1
      hserr htr rfl (by norm_num)
  norm_num at e6
  have h6 : (menuCycle body choices height)^[6] ⟨tl, hp, some e, none⟩ =
      { s1 with counter := some 0 } := by
    simp only [Function.iterate_succ_apply, Function.iterate_zero, id_eq]
    rw [← hs1, e2, e3, e4, e5, e6]
  have hclr := menuCycle_clears body choices height { s1 with counter := some 0 } e
      hserr htr rfl
  have h7 : (menuCycle body choices height)^[7] ⟨tl, hp, some e, none⟩ =
      { s1 with err := none, counter := some 0,
                topline := if s1.topline - ((errorlenOf e : Int) + 1) < 0 then 0
                           else s1.topline - ((errorlenOf e : Int) + 1) } := by
    have : (menuCycle body choices height)^[7] ⟨tl, hp, some e, none⟩ =
        menuCycle body choices height
          ((menuCycle body choices height)^[6] ⟨tl, hp, some e, none⟩) :=
      Function.iterate_succ_apply' (menuCycle body choices height) 6 _
    rw [this, h6, hclr]
  refine ⟨⟨hscnt, hserr, hshp, hstop, hstople⟩, ?_, ?_, ?_, ?_, ?_⟩
  · rw [h6]
    exact hserr
  · rw [h7]
  · rw [h7]
  · intro hsh hcap
    rw [h7]
    dsimp only
    rw [hstop, if_pos hsh, if_neg (by omega)]
    have hel : (0 : Int) ≤ (errorlenOf e : Int) := Int.natCast_nonneg _
    rw [if_neg (by omega)]
    omega
  · intro width title err0 op hmem
    exact menuRenderOps_no_error height width title body err0 choices _ (by rw [h7]) op hmem

/-- C3 witness: a concrete invocation where the error region hides
choices and the compensating shift applies uncapped; after seven cycles
the error is gone and `topline` is restored. -/
theorem c3_transient_error_witness :
    ((menuCycle [[]] [['c'], ['c'], ['c']] 6)^[7] ⟨0, 2, some (.s ['o']), none⟩).err = none
      ∧ ((menuCycle [[]] [['c'], ['c'], ['c']] 6)^[7] ⟨0, 2, some (.s ['o']), none⟩).topline = 0 := by
  have h := c3_transient_error [[]] [['c'], ['c'], ['c']] 6 (.s ['o']) 0 2
      (by decide) (by norm_num) (by norm_num)
  exact ⟨h.2.2.1, h.2.2.2.2.1 (by decide) (by decide)⟩

/-- C3 counterexample: when the error does not push choices out of view
no compensating shift is applied, yet the clearing step still subtracts
`errorlen + 1`; from pre-message `topline = 1` the restored value is 0,
so `topline` is not restored to its pre-message value. -/
theorem c3_counterexample :
    ((menuCycle [[]] [['c'], ['c'], ['c']] 20)^[7] ⟨1, 1, some (.s ['o']), none⟩).err = none
      ∧ ((menuCycle [[]] [['c'], ['c'], ['c']] 20)^[7] ⟨1, 1, some (.s ['o']), none⟩).topline = 0
      ∧ (0 : Int) ≠ 1 := by decide

/-- C9 (amended): with the cursor hidden (`curs = 0`) a `showmenu` frame
never fails for an empty choice list, in both interactive and info-box
modes and for every key and state, and a cancel-class key returns the
no-selection result; with `curs ≠ 0` and empty choices the
selected-choice access `choices[hpos]` raises `IndexError` instead. -/
theorem c9_empty_choices (body : List (List (List Char))) (height : Int)
    (infobox : Bool) (k : MKey) (st : FrameSt) :
    (menuFrame body [] height 0 infobox k st).isOk = true
      ∧ menuFrame body [] height 0 infobox .quit st = .ok (.done none) := by
  constructor
  · unfold menuFrame
    rw [if_neg (by simp)]
    split
    · rfl
    · split
      · rfl
      · split <;> rfl
  · unfold menuFrame
    rw [if_neg (by simp), if_pos rfl]

/-- C9 counterexample: with `curs ≠ 0` and an empty choice list the
frame raises, in interactive mode and in info-box mode even on a cancel
key. -/
theorem c9_counterexample :
    menuFrame [[]] [] 20 2 false .other ⟨0, 0, none, none⟩ = .error .indexError
      ∧ menuFrame [[]] [] 20 2 true .quit ⟨0, 0, none, none⟩ = .error .indexError :=
  ⟨rfl, rfl⟩

/-- C1 (amended): in a visible pane of the split-pane renderer, screen
row `i` shows the buffer line at index `offset.row + i` clipped from
column `offset.col` to the pane's stop column, the end-of-content marker
when that index equals the buffer length, and nothing when it is
negative or past the end; consequently an offset with `row = -1` shows
the first content row on the first display row (nothing scrolled), while
`row = 0` starts from the second content row. -/
theorem c1_pane_row_rendering (buf : List (List Char)) (pos : PanePos)
    (stopCol startCol endCol : Int) (color : Style) (i : Nat)
    (hvis : stopCol ≠ pos.col) :
    ((0 ≤ (i : Int) + pos.row ∧ (i : Int) + pos.row < buf.length →
        paneRowOps buf pos stopCol startCol endCol color i =
          [⟨i, startCol, pySlice (buf.getD (pos.row + i).toNat []) pos.col stopCol, color⟩])
      ∧ ((i : Int) + pos.row = buf.length →
        paneRowOps buf pos stopCol startCol endCol color i =
          [⟨i, endCol, endMarker, .info⟩])
      ∧ ((i : Int) + pos.row < 0 ∨ (buf.length : Int) < (i : Int) + pos.row →
        paneRowOps buf pos stopCol startCol endCol color i = [])
      ∧ (pos.row = -1 → buf ≠ [] →
        paneRowOps buf pos stopCol startCol endCol color 1 =
          [⟨1, startCol, pySlice (buf.headD []) pos.col stopCol, color⟩])) := by
  unfold paneRowOps
  refine ⟨?_, ?_, ?_, ?_⟩
  · intro h
    rw [if_pos hvis, if_pos h]
  · intro h
    rw [if_pos hvis, if_neg (by omega), if_pos h]
  · intro h
    rw [if_pos hvis, if_neg (by omega), if_neg (by omega)]
  · intro hrow hne
    have hlen : 0 < buf.length := List.length_pos.mpr hne
    rw [if_pos hvis]
    rw [if_pos (show (0 : Int) ≤ ((1 : Nat) : Int) + pos.row ∧
          ((1 : Nat) : Int) + pos.row < (buf.length : Int) by push_cast; omega)]
    rw [hrow]
    cases buf with
    | nil => cases hne rfl
    | cons a t => norm_num

/-- C1 witness: a concrete in-bounds row of a visible pane. -/
theorem c1_pane_row_rendering_witness :
    paneRowOps [['a'], ['b']] ⟨0, 0⟩ 3 0 1 .std 1 = [⟨1, 0, ['b'], .std⟩] := by
  have h := (c1_pane_row_rendering [['a'], ['b']] ⟨0, 0⟩ 3 0 1 .std 1
      (by decide)).1 (by constructor <;> decide)
  exact h.trans (by decide)

/-- C1 counterexample: with `row = 0` the first display row (screen row
1) shows the buffer line at index 1, not the first content row, so
`row = 0` does not render the first content row flush to the first
display row. -/
theorem c1_counterexample :
    (drawsplitpane 3 20 [['a'], ['b']] ⟨0, 0⟩ [] ⟨0, 0⟩ false 0 2).filter
        (fun op => op.row == 1) = [⟨1, 0, ['b'], .std⟩]
      ∧ (['b'] : List Char) ≠ ['a'] := by decide

/-- C2: the code violates the `row ≥ -1` pane-offset invariant — from
the home state (`row = -1`, reached by the forced initial Home key),
pressing Up decrements both row offsets to `-2`. -/
theorem c2_up_breaks_row_floor :
    (diffStep [['a'], ['b'], ['c']] [['x'], ['y']] .home (diffInit 24 80)).lpos.row = -1
      ∧ (diffStep [['a'], ['b'], ['c']] [['x'], ['y']] .home (diffInit 24 80)).rpos.row = -1
      ∧ (diffStep [['a'], ['b'], ['c']] [['x'], ['y']] .up
          (diffStep [['a'], ['b'], ['c']] [['x'], ['y']] .home (diffInit 24 80))).lpos.row = -2
      ∧ (diffStep [['a'], ['b'], ['c']] [['x'], ['y']] .up
          (diffStep [['a'], ['b'], ['c']] [['x'], ['y']] .home (diffInit 24 80))).rpos.row = -2 := by
  decide

/-- C4: with 10 choices, height 5 and the choice area starting on row 1
(four visible choice rows after one header row), pressing Down six times
from the home state yields `selected = 6, topLine = 3`, and End then
yields `selected = 9, topLine = 6`. -/
theorem c4_down6_then_end :
    (menuKey 5 1 10 .down)^[6] ⟨0, 0⟩ = (⟨3, 6⟩ : MenuSt)
      ∧ menuKey 5 1 10 .kend ((menuKey 5 1 10 .down)^[6] ⟨0, 0⟩) = (⟨6, 9⟩ : MenuSt) := by
  decide

/-- Closed form for repeated Down from a window-top state (`topline =
hpos = p`): after `n` presses with no clamping, the selection is `p + n`
and `topline` has scrolled just enough to keep it on the last visible
row. -/
theorem menuKey_downs_from_top (height actualtop : Int) (count : Nat) (p : Int)
    (hv : actualtop + 1 ≤ height) (hp : 0 ≤ p) :
    ∀ n : Nat, p + n ≤ (count : Int) - 1 →
      (menuKey height actualtop count .down)^[n] ⟨p, p⟩ =
        ⟨p + max 0 ((n : Int) - (height - actualtop - 1)), p + n⟩ := by
  intro n
  induction n with
  | zero =>
      intro _
      simp only [Function.iterate_zero, id_eq, MenuSt.mk.injEq, Nat.cast_zero]
      omega
  | succ n ih =>
      intro h
      have hn : p + (n : Int) ≤ (count : Int) - 1 := by push_cast at h; omega
      rw [Function.iterate_succ_apply', ih (by exact_mod_cast hn)]
      simp only [menuKey]
      rw [if_pos (show p + (n : Int) < (count : Int) - 1 by push_cast at h; omega)]
      simp only [MenuSt.mk.injEq]
      refine ⟨?_, by push_cast; ring⟩
      split <;> (push_cast at *; omega)

/-- Closed form for repeated Up from a state whose window top `T` lies
between the selection's home value `p` and the selection `P`: the
selection walks down and `topline` follows once the selection reaches
it. -/
theorem menuKey_ups_to_top (height actualtop : Int) (count : Nat) (p T P : Int)
    (hp : 0 ≤ p) (hT1 : p ≤ T) (hT2 : T ≤ P) :
    ∀ j : Nat, (j : Int) ≤ P - p →
      (menuKey height actualtop count .up)^[j] ⟨T, P⟩ =
        ⟨min T (P - j), P - j⟩ := by
  intro j
  induction j with
  | zero =>
      intro _
      simp only [Function.iterate_zero, id_eq, MenuSt.mk.injEq, Nat.cast_zero]
      omega
  | succ j ih =>
      intro h
      have hj : (j : Int) ≤ P - p := by push_cast at h; omega
      rw [Function.iterate_succ_apply', ih hj]
      simp only [menuKey]
      rw [if_pos (show P - (j : Int) > 0 by push_cast at h; omega)]
      simp only [MenuSt.mk.injEq]
      refine ⟨?_, by push_cast; ring⟩
      split <;> (push_cast at *; omega)

/-- C5 (amended): from any window-top state (`topline = hpos`), with at
least one visible choice row and no clamping at the end of the list,
pressing Down `n` times and then Up `n` times restores both `selected`
and `topLine`. -/
theorem c5_down_up_roundtrip (height actualtop : Int) (count : Nat) (p : Int) (n : Nat)
    (hv : actualtop + 1 ≤ height) (hp : 0 ≤ p)
    (hn : p + n ≤ (count : Int) - 1) :
    (menuKey height actualtop count .up)^[n]
        ((menuKey height actualtop count .down)^[n] ⟨p, p⟩) = ⟨p, p⟩ := by
  rw [menuKey_downs_from_top height actualtop count p hv hp n hn]
  rw [menuKey_ups_to_top height actualtop count p
      (p + max 0 ((n : Int) - (height - actualtop - 1))) (p + n) hp
      (by omega) (by omega) n (by push_cast; omega)]
  simp only [MenuSt.mk.injEq]
  omega

/-- C5 witness: ten concrete presses round-trip. -/
theorem c5_down_up_roundtrip_witness :
    (menuKey 5 3 4 .up)^[3] ((menuKey 5 3 4 .down)^[3] ⟨0, 0⟩) = (⟨0, 0⟩ : MenuSt) :=
  c5_down_up_roundtrip 5 3 4 0 3 (by norm_num) (by norm_num) (by norm_num)

/-- C5 counterexample: from the reachable state `topline = 1, hpos = 2`
(two Downs from home, four choices, one header-free window of two rows),
one Down then one Up leaves `topline = 2`, not `1` — the round-trip
fails from a state whose selection sits at the bottom of the window. -/
theorem c5_counterexample :
    (menuKey 5 3 4 .down)^[2] ⟨0, 0⟩ = (⟨1, 2⟩ : MenuSt)
      ∧ menuKey 5 3 4 .up (menuKey 5 3 4 .down ⟨1, 2⟩) = (⟨2, 2⟩ : MenuSt)
      ∧ (⟨2, 2⟩ : MenuSt) ≠ ⟨1, 2⟩ := by decide

/-- C6: Home always yields `selected = 0, topLine = 0`; when the choice
count exceeds the visible height, End yields `selected = count - 1` with
`topLine = count - height + actualtop`, which places the last item on
the last visible screen row (`actualtop + (count-1) - topLine =
height - 1`). -/
theorem c6_home_end (height actualtop : Int) (count : Nat) (s : MenuSt) :
    menuKey height actualtop count .home s = ⟨0, 0⟩
      ∧ (actualtop + count > height →
          menuKey height actualtop count .kend s =
            ⟨(count : Int) - height + actualtop, (count : Int) - 1⟩
          ∧ actualtop + ((count : Int) - 1) -
              ((count : Int) - height + actualtop) = height - 1) := by
  refine ⟨rfl, fun h => ⟨?_, by ring⟩⟩
  simp only [menuKey]
  rw [if_pos h]

/-- C6 witness: a concrete End press with the list longer than the
window. -/
theorem c6_home_end_witness :
    menuKey 5 3 4 .home ⟨1, 2⟩ = ⟨0, 0⟩
      ∧ menuKey 5 3 4 .kend ⟨1, 2⟩ = (⟨2, 3⟩ : MenuSt) := by
  have h := c6_home_end 5 3 4 ⟨1, 2⟩
  exact ⟨h.1, ((h.2 (by norm_num)).1).trans (by norm_num)⟩

/-- C7 (amended): for `width ≥ 4` and a boundary shift whose magnitude
exceeds `width/2 - 2`, the pane on the side the boundary was pushed past
collapses — its stop column equals its own column offset, so no row of
it contributes any write — while the opposite pane's column span runs to
the full width plus its own column offset (and a left collapse puts the
right pane's start column at 0). -/
theorem c7_boundary_collapse (width : Nat) (shmt : Int)
    (hw : 4 ≤ width) (hm : |shmt| > ((width / 2 : Nat) : Int) - 2) :
    (0 < shmt → ∀ (rhs : List (List Char)) (rpos : PanePos) (lcol : Int),
        rstopOf width shmt 2 rpos.col = rpos.col
        ∧ lstopOf width shmt 2 lcol = (width : Int) + lcol
        ∧ ∀ (startCol endCol : Int) (color : Style) (i : Nat),
            paneRowOps rhs rpos (rstopOf width shmt 2 rpos.col) startCol endCol color i = [])
      ∧ (shmt < 0 → ∀ (lhs : List (List Char)) (lpos : PanePos) (rcol : Int),
        lstopOf width shmt 2 lpos.col = lpos.col
        ∧ rstartOf width shmt 2 = 0
        ∧ rstopOf width shmt 2 rcol = (width : Int) + rcol
        ∧ ∀ (startCol endCol : Int) (color : Style) (i : Nat),
            paneRowOps lhs lpos (lstopOf width shmt 2 lpos.col) startCol endCol color i = []) := by
  constructor
  · intro hpos rhs rpos lcol
    rw [abs_of_pos hpos] at hm
    have h1 : rstartOf width shmt 2 = (width : Int) := by
      unfold rstartOf middleOf
      rw [if_pos (show shmt ≠ 0 by omega), if_pos (by omega)]
    have h3 : rstopOf width shmt 2 rpos.col = rpos.col := by
      unfold rstopOf
      rw [h1]
      ring
    refine ⟨h3, ?_, ?_⟩
    · unfold lstopOf middleOf
      rw [if_pos (show shmt ≠ 0 by omega), if_pos (by omega)]
    · intro startCol endCol color i
      rw [h3]
      unfold paneRowOps
      rw [if_neg (fun hc => hc rfl)]
  · intro hneg lhs lpos rcol
    rw [abs_of_neg hneg] at hm
    have h1 : lstopOf width shmt 2 lpos.col = lpos.col := by
      unfold lstopOf middleOf
      rw [if_pos (show shmt ≠ 0 by omega), if_neg (by omega), if_pos (by omega)]
    have h2 : rstartOf width shmt 2 = 0 := by
      unfold rstartOf middleOf
      rw [if_pos (show shmt ≠ 0 by omega), if_neg (by omega), if_pos (by omega)]
    refine ⟨h1, h2, ?_, ?_⟩
    · unfold rstopOf
      rw [h2]
      ring
    · intro startCol endCol color i
      rw [h1]
      unfold paneRowOps
      rw [if_neg (fun hc => hc rfl)]

/-- C7 witness: width 20, shift 9 pushes the boundary past the right
edge; the right pane contributes nothing and the left span runs to
column 20. -/
theorem c7_boundary_collapse_witness :
    rstopOf 20 9 2 0 = 0 ∧ lstopOf 20 9 2 0 = 20
      ∧ paneRowOps [['x']] ⟨0, 0⟩ (rstopOf 20 9 2 0) 12 16 .std 1 = [] := by
  have h := (c7_boundary_collapse 20 9 (by norm_num) (by decide)).1 (by norm_num)
      [['x']] ⟨0, 0⟩ 0
  exact ⟨h.1, h.2.1, h.2.2 12 16 .std 1⟩

/-- C7 counterexample: at width 2 with shift `-1` (magnitude exceeds
`width/2 - 2`), the boundary is pushed past the left edge, yet the left
pane does not collapse — it still draws its buffer's characters, because
the code's right-collapse regime is tested first and captures this
state. -/
theorem c7_counterexample :
    |(-1 : Int)| > ((2 / 2 : Nat) : Int) - 2
      ∧ (-1 : Int) < 0
      ∧ rstopOf 2 (-1) 2 0 = 0
      ∧ paneRowOps [['a', 'b']] ⟨-1, 0⟩ (lstopOf 2 (-1) 2 0) 0 1 .std 1 =
          [⟨1, 0, ['a', 'b'], .std⟩] := by decide

/-- C8: with highlighting on, a screen row gets the emphasis-match style
exactly when both buffer indices landing on that row are in bounds and
the two lines are equal after stripping surrounding whitespace; on
`left = ["a", "b "]`, `right = ["a", "x"]` from the home position, the
first content row is emphasized on both sides and the second is
neutral. -/
theorem c8_highlight_rule :
    (∀ (lhs rhs : List (List Char)) (lpos rpos : PanePos) (i : Nat),
        rowColor true lhs lpos rhs rpos i = .matchHl ↔
          (0 ≤ (i : Int) + lpos.row ∧ 0 ≤ (i : Int) + rpos.row ∧
           (i : Int) + lpos.row < lhs.length ∧ (i : Int) + rpos.row < rhs.length ∧
           pyStrip (lhs.getD (lpos.row + i).toNat []) =
             pyStrip (rhs.getD (rpos.row + i).toNat [])))
      ∧ ((drawsplitpane 3 20 [['a'], ['b', ' ']] ⟨-1, 0⟩ [['a'], ['x']] ⟨-1, 0⟩ true 0 2).filter
          (fun op => op.row == 1)).map (fun op => op.style) = [.matchHl, .matchHl]
      ∧ ((drawsplitpane 3 20 [['a'], ['b', ' ']] ⟨-1, 0⟩ [['a'], ['x']] ⟨-1, 0⟩ true 0 2).filter
          (fun op => op.row == 2)).map (fun op => op.style) = [.std, .std] := by
  refine ⟨?_, by decide, by decide⟩
  intro lhs rhs lpos rpos i
  unfold rowColor
  split
  case isTrue h => exact iff_of_true rfl ⟨h.2.1, h.2.2.1, h.2.2.2.1, h.2.2.2.2.1, h.2.2.2.2.2⟩
  case isFalse h =>
    exact iff_of_false (by decide)
      (fun hr => h ⟨rfl, hr.1, hr.2.1, hr.2.2.1, hr.2.2.2.1, hr.2.2.2.2⟩)
